import Mathlib

/-!
Formal model of the calculus-solver widget of this repository.

The current component lives in `src/app.js`: an `integrate` helper that
pattern-matches on a mathjs expression tree and applies one of four
power-rule shapes, and a `solveInput` dispatcher that classifies the raw
input string (`∫ ... d<var>` or `d/d<var> ...`), extracts the body and
variable with a regex, calls the rule engine or the external mathjs
`derivative` capability, optionally simplifies, and always converts any
thrown error into a displayable `Error: ...` text.

`src/unnamed/part_000` holds an earlier revision of the same component
whose `solveInput` has no `else` branch on a failed format regex: on an
`∫`- or `d/d`-prefixed input that the regex rejects it returns without
setting any result text.  It is modelled separately as `legacySolveInput`
(result type `Option String`, where `none` records that `setResult` was
never called).

Modelling decisions:
* mathjs node types `ConstantNode` / `SymbolNode` / `OperatorNode` /
  `FunctionNode` become the `Expr` inductive; numeric literals are
  modelled as integers (the only values the rule table exercises);
  `ParenthesisNode` wrappers are dropped — they change surface text only,
  never the shape tests of `integrate`.
* JavaScript exceptions become the `Except String` monad: a thrown
  error is an `Except.error message`, a `try/catch` is a `match` that
  converts `error` into the caught branch.
* The result strings the rules build with `math.parse` of a template
  (for example `(${variable}^${newExp})/${newExp}`) are modelled as the
  expression trees those templates denote.
* The request regexes `^∫\s*(.*?)\s*d([a-zA-Z])$` and
  `^d\/d([a-zA-Z])\s+(.*)$` are modelled by `matchIntegral` and
  `matchDerivative` on the already-trimmed input (so `$` is end of
  string); the lazy body capture bounded by the two greedy `\s*` makes
  the captured body exactly the whitespace-trimmed middle, and `.`
  not matching newlines makes the regex fail when that trimmed middle
  still contains a newline.  Whitespace is the ASCII class
  (space, tab, CR, LF).
-/

namespace CalcSolver

/-- Binary operator kinds of a mathjs OperatorNode that the code inspects:
`+`, `-`, `*`, `/`, `^`. -/
inductive Op where
  | add
  | sub
  | mul
  | div
  | pow
deriving DecidableEq, Repr

/-- Shallow embedding of the mathjs expression trees the solver manipulates:
`const` is a ConstantNode (integer-valued in the model), `sym` a SymbolNode,
`binOp` an OperatorNode with two arguments, and `func` a FunctionNode with
one argument (for example `ln(x)`, `sin(x)`). -/
inductive Expr where
  | const (value : Int)
  | sym (name : String)
  | binOp (op : Op) (left right : Expr)
  | func (fname : String) (arg : Expr)
deriving DecidableEq, Repr

/-- Textual symbol of an operator, used by `Expr.render`. -/
def Op.render : Op → String
  | .add => "+"
  | .sub => "-"
  | .mul => "*"
  | .div => "/"
  | .pow => "^"

/-- Canonical textual rendering of a tree; this stands for mathjs
`Node.toString()` in the model (fully parenthesised, which only affects
surface syntax: the dispatcher passes the rendered text through opaquely). -/
def Expr.render : Expr → String
  | .const k => toString k
  | .sym s => s
  | .binOp op a b => "(" ++ a.render ++ " " ++ op.render ++ " " ++ b.render ++ ")"
  | .func f a => f ++ "(" ++ a.render ++ ")"

/-- Recognizer of rule 1 of `integrate` (src/app.js lines 84-88): the body is
`BinaryOp(power, Symbol(s), Constant(n))` with `s == variable`.  The
JavaScript also checks `typeof exponent.value === 'number'`, which is always
true in the integer-valued model. -/
def rule1Matches (body : Expr) (varName : String) : Bool :=
  match body with
  | .binOp .pow (.sym s) (.const _) => s == varName
  | _ => false

/-- Transform of rule 1 of `integrate` (src/app.js lines 89-93):
`newExp = n + 1`; if `newExp == 0` return `ln(variable)`, else return
`(variable^newExp)/newExp`. -/
def rule1Transform (body : Expr) (varName : String) : Expr :=
  match body with
  | .binOp .pow _ (.const n) =>
      let newExp := n + 1
      if newExp == 0 then .func "ln" (.sym varName)
      else .binOp .div (.binOp .pow (.sym varName) (.const newExp)) (.const newExp)
  | _ => body

/-- Recognizer of rule 2 of `integrate` (src/app.js lines 99-106): the body is
`BinaryOp(multiply, Constant(c), BinaryOp(power, Symbol(s), Constant(n)))`
with `s == variable` — the constant strictly as the left multiplicand. -/
def rule2Matches (body : Expr) (varName : String) : Bool :=
  match body with
  | .binOp .mul (.const _) (.binOp .pow (.sym s) (.const _)) => s == varName
  | _ => false

/-- Transform of rule 2 of `integrate` (src/app.js lines 107-112):
`newExp = n + 1`; if `newExp == 0` return `coeff * ln(variable)`, else
return `(coeff * variable^newExp)/newExp`. -/
def rule2Transform (body : Expr) (varName : String) : Expr :=
  match body with
  | .binOp .mul (.const c) (.binOp .pow _ (.const n)) =>
      let newExp := n + 1
      if newExp == 0 then .binOp .mul (.const c) (.func "ln" (.sym varName))
      else .binOp .div
        (.binOp .mul (.const c) (.binOp .pow (.sym varName) (.const newExp)))
        (.const newExp)
  | _ => body

/-- Recognizer of rule 3 of `integrate` (src/app.js line 118): the body is the
bare `Symbol(s)` with `s == variable`. -/
def rule3Matches (body : Expr) (varName : String) : Bool :=
  match body with
  | .sym s => s == varName
  | _ => false

/-- Transform of rule 3 of `integrate` (src/app.js line 119): return
`(variable^2)/2`. -/
def rule3Transform (_body : Expr) (varName : String) : Expr :=
  .binOp .div (.binOp .pow (.sym varName) (.const 2)) (.const 2)

/-- Recognizer of rule 4 of `integrate` (src/app.js lines 123-127): the body is
`BinaryOp(multiply, A, B)` where one operand is a constant and the other is
`Symbol(variable)`, in either order. -/
def rule4Matches (body : Expr) (varName : String) : Bool :=
  match body with
  | .binOp .mul (.const _) (.sym s) => s == varName
  | .binOp .mul (.sym s) (.const _) => s == varName
  | _ => false

/-- Transform of rule 4 of `integrate` (src/app.js lines 128-129): the
coefficient is taken from whichever operand is the constant; return
`(coeff * variable^2)/2`. -/
def rule4Transform (body : Expr) (varName : String) : Expr :=
  match body with
  | .binOp .mul (.const c) _ =>
      .binOp .div (.binOp .mul (.const c) (.binOp .pow (.sym varName) (.const 2)))
        (.const 2)
  | .binOp .mul _ (.const c) =>
      .binOp .div (.binOp .mul (.const c) (.binOp .pow (.sym varName) (.const 2)))
        (.const 2)
  | _ => body

/-- An integration rule: a recognizer predicate paired with a transform, the
data-model view of each `if`-block in `integrate`. -/
structure Rule where
  recognizes : Expr → String → Bool
  transform : Expr → String → Expr

/-- Rule 1 of `integrate`: the power rule `x^n`. -/
def rule1 : Rule := ⟨rule1Matches, rule1Transform⟩

/-- Rule 2 of `integrate`: the constant-times-power rule `c*x^n`. -/
def rule2 : Rule := ⟨rule2Matches, rule2Transform⟩

/-- Rule 3 of `integrate`: the bare-symbol rule `x`. -/
def rule3 : Rule := ⟨rule3Matches, rule3Transform⟩

/-- Rule 4 of `integrate`: the constant-times-symbol rule `c*x` / `x*c`. -/
def rule4 : Rule := ⟨rule4Matches, rule4Transform⟩

/-- The ordered rule table of `integrate` (src/app.js lines 84-131), tried
top-down, first match wins. -/
def rules : List Rule := [rule1, rule2, rule3, rule4]

/-- First-match application of a rule table: the sequential `if`-chain of
`integrate` as a fold over the table. -/
def applyRules (l : List Rule) (body : Expr) (varName : String) : Option Expr :=
  (l.find? (fun r => r.recognizes body varName)).map
    (fun r => r.transform body varName)

/-- Core of `integrate` (src/app.js lines 84-134) after the body has been
parsed: apply the first matching rule; if none matches, throw
`Integration not yet supported for: <expression>. Try: x, x^2, x^3, 2*x, etc.`
where `<expression>` is the literal source text handed to `integrate`. -/
def integrateBody (body : Expr) (expression varName : String) : Except String Expr :=
  match applyRules rules body varName with
  | some r => .ok r
  | none => .error ("Integration not yet supported for: " ++ expression
      ++ ". Try: x, x^2, x^3, 2*x, etc.")

/-- The `integrate` helper of src/app.js (lines 78-138): parse the expression
text with the mathjs `parse` capability (a parse failure is rethrown — the
function's own `catch (e) { throw e }` just rethrows), then run the rule
table on the resulting tree. -/
def integrate (parse : String → Except String Expr) (expression varName : String) :
    Except String Expr :=
  match parse expression with
  | .error e => .error e
  | .ok parsed => integrateBody parsed expression varName

/-- ASCII whitespace, the class that both `String.prototype.trim` and the
regex `\s` use on the inputs this system sees. -/
def isWs (c : Char) : Bool :=
  c == ' ' || c == '\t' || c == '\n' || c == '\r'

/-- Drop leading and trailing whitespace of a character list. -/
def trimChars (l : List Char) : List Char :=
  ((l.dropWhile isWs).reverse.dropWhile isWs).reverse

/-- Model of JavaScript `String.prototype.trim()`. -/
def trimStr (s : String) : String := String.mk (trimChars s.data)

/-- Boolean prefix test on character lists. -/
def beginsWith : List Char → List Char → Bool
  | [], _ => true
  | _ :: _, [] => false
  | p :: ps, c :: cs => p == c && beginsWith ps cs

/-- Model of JavaScript `String.prototype.startsWith(pre)`. -/
def strBegins (s pre : String) : Bool := beginsWith pre.data s.data

/-- Model of `expr.match(/^∫\s*(.*?)\s*d([a-zA-Z])$/)` on the trimmed input
(src/app.js line 148): the string must start with `∫` and end with `d`
followed by one ASCII letter (the captured varName); the captured body is
the whitespace-trimmed middle, and the match fails if that trimmed middle
still contains a newline (`.` does not cross newlines). -/
def matchIntegral (s : String) : Option (String × String) :=
  match s.data with
  | '∫' :: rest =>
    match rest.reverse with
    | v :: 'd' :: midRev =>
      if v.isAlpha then
        let body := trimChars midRev.reverse
        if body.any (fun c => c == '\n' || c == '\r') then none
        else some (String.mk body, String.mk [v])
      else none
    | _ => none
  | _ => none

/-- Model of `expr.match(/^d\/d([a-zA-Z])\s+(.*)$/)` on the trimmed input
(src/app.js line 183): `d/d`, one ASCII letter (the varName), at least one
whitespace character, then the rest of the string as the body, which may not
contain a newline. -/
def matchDerivative (s : String) : Option (String × String) :=
  match s.data with
  | 'd' :: '/' :: 'd' :: v :: rest =>
    if v.isAlpha then
      let afterWs := rest.dropWhile isWs
      if afterWs.length == rest.length then none
      else if afterWs.any (fun c => c == '\n' || c == '\r') then none
      else some (String.mk [v], String.mk afterWs)
    else none
  | _ => none

/-- The external mathjs capabilities as src/app.js probes them: whether the
`math` global is loaded at all, and the `parse`, `derivative` and `simplify`
members, each of which may be absent and, when present, may throw. -/
structure MathCaps where
  loaded : Bool
  parse : Option (String → Except String Expr)
  derivative : Option (String → String → Except String Expr)
  simplify : Option (Expr → Except String Expr)

/-- The body of the outer `try` of `solveInput` (src/app.js lines 143-219):
classify the trimmed input by prefix, extract body and variable, probe the
required capabilities, run the integration rule engine or the derivative
capability, then simplify when the capability exists; the inner
`try { ... } catch (e) { setResult('Error: ' + e.message) }` around the
computation converts any thrown error into an `Error: ...` result text. -/
def solveInputTry (caps : MathCaps) (input : String) : Except String String :=
  let expr := trimStr input
  if strBegins expr "∫" then
    match matchIntegral expr with
    | some (body0, varName) =>
      let body := trimStr body0
      if caps.loaded = false then
        .ok "Error: MathJS is not loaded. Please check your internet connection."
      else
        match caps.parse with
        | none =>
          .ok "Error: MathJS parse function is not available. The browser build may be incomplete."
        | some parse =>
          match integrate parse body varName with
          | .error e => .ok ("Error: " ++ e)
          | .ok integral =>
            match caps.simplify with
            | some simplify =>
              match simplify integral with
              | .error e => .ok ("Error: " ++ e)
              | .ok simplified => .ok (Expr.render simplified)
            | none => .ok (Expr.render integral)
    | none => .ok "Invalid integral format. Use: ∫ expression dx (e.g., ∫ x^2 dx)"
  else if strBegins expr "d/d" then
    match matchDerivative expr with
    | some (varName, body0) =>
      let body := trimStr body0
      if caps.loaded = false then
        .ok "Error: MathJS is not loaded. Please check your internet connection."
      else
        match caps.derivative with
        | none => .ok "Error: MathJS derivative function is not available."
        | some derivative =>
          match derivative body varName with
          | .error e => .ok ("Error: " ++ e)
          | .ok d =>
            match caps.simplify with
            | some simplify =>
              match simplify d with
              | .error e => .ok ("Error: " ++ e)
              | .ok simplified => .ok (Expr.render simplified)
            | none => .ok (Expr.render d)
    | none => .ok "Invalid derivative format. Use: d/dx expression (e.g., d/dx x^2)"
  else
    .ok "Please start your input with ∫ (for integral) or d/dx (for derivative)."

/-- The `solveInput` dispatcher of src/app.js (lines 141-223): the whole body
runs inside `try { ... } catch (e) { setResult('Error: ' + e.message) }`, so
an error escaping the try-block is still rendered as result text.  The
returned string is the text passed to `setResult`. -/
def solveInput (caps : MathCaps) (input : String) : Except String String :=
  match solveInputTry caps input with
  | .ok r => .ok r
  | .error e => .ok ("Error: " ++ e)

/-- The external capabilities as the legacy revision `src/unnamed/part_000`
probes them: the `math` global, a `math.integral` extension (absent in stock
mathjs) and `math.derivative`.  The derivative capability may return a falsy
value, modelled as `none`, which the legacy code turns into
`Error computing derivative`. -/
structure LegacyCaps where
  mathLoaded : Bool
  integral : Option (String → String → Except String Expr)
  derivative : Option (String → String → Except String (Option Expr))

/-- The body of the `try` of the legacy `solveInput`
(src/unnamed/part_000 lines 67-103).  Crucially, the two `if (match)` blocks
have no `else`: when the format regex fails on an `∫`- or `d/d`-prefixed
input, control falls off the end of the function and `setResult` is never
called — modelled as the value `none`. -/
def legacyTry (caps : LegacyCaps) (input : String) : Except String (Option String) :=
  let expr := trimStr input
  if strBegins expr "∫" then
    match matchIntegral expr with
    | some (body, varName) =>
      if caps.mathLoaded then
        match caps.integral with
        | some integralFn =>
          match integralFn body varName with
          | .error e => .error e
          | .ok t => .ok (some (Expr.render t))
        | none => .ok (some "Integral solving requires MathJS with \"integral\" extension.")
      else .ok (some "Integral solving requires MathJS with \"integral\" extension.")
    | none => .ok none
  else if strBegins expr "d/d" then
    match matchDerivative expr with
    | some (varName, body) =>
      if caps.mathLoaded then
        match caps.derivative with
        | some derivativeFn =>
          match derivativeFn body varName with
          | .error e => .error e
          | .ok (some d) => .ok (some (Expr.render d))
          | .ok none => .ok (some "Error computing derivative")
        | none => .ok (some "Differentiation requires MathJS.")
      else .ok (some "Differentiation requires MathJS.")
    | none => .ok none
  else
    .ok (some "Please start your input with ∫ (for integral) or d/dx (for derivative).")

/-- The legacy `solveInput` dispatcher (src/unnamed/part_000 lines 65-107):
the outer `catch` renders a thrown error as `Error: ...` text; `none` means
the function returned without calling `setResult` at all. -/
def legacySolveInput (caps : LegacyCaps) (input : String) : Except String (Option String) :=
  match legacyTry caps input with
  | .ok r => .ok r
  | .error e => .ok (some ("Error: " ++ e))

/-- Rational-valued evaluation of a tree under an environment for the
symbols, used to state algebraic equivalence of result trees (for example
that the zero-coefficient result denotes the constant 0).  Division by zero
and non-integer exponents evaluate to `none`; function nodes are opaque. -/
def evalExpr (env : String → ℚ) : Expr → Option ℚ
  | .const k => some (k : ℚ)
  | .sym s => some (env s)
  | .func _ _ => none
  | .binOp op a b =>
    match evalExpr env a, evalExpr env b with
    | some x, some y =>
      match op with
      | .add => some (x + y)
      | .sub => some (x - y)
      | .mul => some (x * y)
      | .div => if y = 0 then none else some (x / y)
      | .pow => if y.den = 1 then some (x ^ y.num) else none
    | _, _ => none

/-- Shape of the canonical rule-1 input `variable^n`. -/
def powBody (v : String) (n : Int) : Expr :=
  .binOp .pow (.sym v) (.const n)

/-- Shape of the canonical rule-2 input `c * variable^n`. -/
def constMulPowBody (c : Int) (v : String) (n : Int) : Expr :=
  .binOp .mul (.const c) (powBody v n)

/-- Shape of the canonical rule-4 input `c * variable`. -/
def constMulSymBody (c : Int) (v : String) : Expr :=
  .binOp .mul (.const c) (.sym v)

/-- Shape of the mirrored rule-4 input `variable * c`. -/
def symMulConstBody (v : String) (c : Int) : Expr :=
  .binOp .mul (.sym v) (.const c)

/-- Shape of the unsupported mirrored rule-2 input `(variable^n) * c`. -/
def powMulConstBody (v : String) (n : Int) (c : Int) : Expr :=
  .binOp .mul (powBody v n) (.const c)

/-- Parse capability stub used in concrete evaluations: always returns the
tree of `x^2`. -/
def parseStubSq : String → Except String Expr :=
  fun _ => .ok (powBody "x" 2)

/-- Parse capability stub that always throws. -/
def parseStubFail : String → Except String Expr :=
  fun _ => .error "boom"

/-- Simplify capability stub: always returns the symbol `S`. -/
def simplifyStub : Expr → Except String Expr :=
  fun _ => .ok (.sym "S")

/-- Derivative capability stub: always returns the tree of `2*x`. -/
def derivativeStub : String → String → Except String Expr :=
  fun _ _ => .ok (constMulSymBody 2 "x")

/-- Capability record with mathjs loaded, a parse stub and no simplifier. -/
def capsNoSimplify : MathCaps := ⟨true, some parseStubSq, none, none⟩

/-- Capability record with mathjs loaded, a parse stub and a simplifier. -/
def capsWithSimplify : MathCaps := ⟨true, some parseStubSq, none, some simplifyStub⟩

/-- Capability record with a derivative stub and no simplifier. -/
def capsDerivative : MathCaps := ⟨true, none, some derivativeStub, none⟩

/-- Capability record whose parse capability always throws. -/
def capsParseFail : MathCaps := ⟨true, some parseStubFail, none, none⟩

/-- Capability record with nothing available. -/
def capsNone : MathCaps := ⟨false, none, none, none⟩

/-- Legacy capability record with nothing available. -/
def legacyCapsNone : LegacyCaps := ⟨false, none, none⟩

/-- Legacy integral-extension stub that always throws. -/
def legacyIntegralFail : String → String → Except String Expr :=
  fun _ _ => .error "intfail"

/-- Legacy derivative capability stub that always throws. -/
def legacyDerivativeFail : String → String → Except String (Option Expr) :=
  fun _ _ => .error "derfail"

/-- Legacy capability record whose integral and derivative capabilities both
throw. -/
def legacyCapsFail : LegacyCaps :=
  ⟨true, some legacyIntegralFail, some legacyDerivativeFail⟩


/-! Helper lemmas. -/

/-- The first match of a predicate is the head of the filtered list. -/
theorem find_eq_filter_head {α : Type} (p : α → Bool) (l : List α) :
    l.find? p = (l.filter p).head? := by
  induction l with
  | nil => rfl
  | cons a t ih =>
    cases h : p a
    · rw [List.find?_cons_of_neg _ (by simp [h]), List.filter_cons_of_neg (by simp [h])]
      exact ih
    · rw [List.find?_cons_of_pos _ (by simp [h]), List.filter_cons_of_pos (by simp [h])]
      rfl

/-- A successful integral-format match entails the `∫` prefix. -/
theorem matchIntegral_begins (s : String) (pr : String × String)
    (h : matchIntegral s = some pr) : strBegins s "∫" = true := by
  unfold matchIntegral at h
  split at h
  · rename_i rest heq
    unfold strBegins
    rw [heq]
    rfl
  · exact absurd h (by simp)

/-- A successful derivative-format match entails the `d/d` prefix and rules
out the `∫` prefix. -/
theorem matchDerivative_begins (s : String) (pr : String × String)
    (h : matchDerivative s = some pr) :
    strBegins s "d/d" = true ∧ strBegins s "∫" = false := by
  unfold matchDerivative at h
  split at h
  · rename_i v rest heq
    unfold strBegins
    rw [heq]
    exact ⟨rfl, rfl⟩
  · exact absurd h (by simp)

/-! Claim theorems. -/

/-- C1: for every variable letter `v`, number `n ≠ -1` and nonzero
coefficient `c`, the Integration Rule Engine on a body `v^n` returns the
tree of `(v^(n+1))/(n+1)`, and on a body `c*v^n` (constant as the left
multiplicand, power on the right) returns the tree of
`(c * v^(n+1))/(n+1)`. -/
theorem integrate_power_rule (v e : String) (n c : Int)
    (hn : n ≠ -1) (hc : c ≠ 0) :
    integrateBody (powBody v n) e v
      = .ok (.binOp .div (.binOp .pow (.sym v) (.const (n + 1))) (.const (n + 1)))
    ∧ integrateBody (constMulPowBody c v n) e v
      = .ok (.binOp .div
          (.binOp .mul (.const c) (.binOp .pow (.sym v) (.const (n + 1))))
          (.const (n + 1))) := by
  have hne : (n + 1 == 0) = false := by
    simp only [beq_eq_false_iff_ne, ne_eq]
    omega
  constructor
  · simp [integrateBody, applyRules, rules, powBody, rule1, rule1Matches,
      rule1Transform, hne]
  · simp [integrateBody, applyRules, rules, constMulPowBody, powBody,
      rule1, rule2, rule1Matches, rule2Matches, rule2Transform, hne]

/-- C1 witness: instance at `v = x`, `n = 2`, `c = 5`. -/
theorem integrate_power_rule_witness :
    (2 : Int) ≠ -1 ∧ (5 : Int) ≠ 0
    ∧ (integrateBody (powBody "x" 2) "x^2" "x"
        = .ok (.binOp .div (.binOp .pow (.sym "x") (.const 3)) (.const 3))
      ∧ integrateBody (constMulPowBody 5 "x" 2) "5*x^2" "x"
        = .ok (.binOp .div
            (.binOp .mul (.const 5) (.binOp .pow (.sym "x") (.const 3)))
            (.const 3))) :=
  by
  refine ⟨by decide, by decide, ?_, ?_⟩
  · exact (integrate_power_rule "x" "x^2" 2 5 (by decide) (by decide)).1
  · exact (integrate_power_rule "x" "5*x^2" 2 5 (by decide) (by decide)).2

/-- C2: the Integration Rule Engine maps `v^-1` to `ln(v)` and `c*v^-1`
(constant on the left) to `c * ln(v)`, and on those two shapes the logarithm
branch is taken exactly when the exponent equals `-1`. -/
theorem integrate_log_branch (v e : String) (c n : Int) :
    integrateBody (powBody v (-1)) e v = .ok (.func "ln" (.sym v))
    ∧ integrateBody (constMulPowBody c v (-1)) e v
        = .ok (.binOp .mul (.const c) (.func "ln" (.sym v)))
    ∧ (integrateBody (powBody v n) e v = .ok (.func "ln" (.sym v)) ↔ n = -1)
    ∧ (integrateBody (constMulPowBody c v n) e v
        = .ok (.binOp .mul (.const c) (.func "ln" (.sym v))) ↔ n = -1) := by
  refine ⟨?_, ?_, ?_, ?_⟩
  · simp [integrateBody, applyRules, rules, powBody, rule1, rule1Matches,
      rule1Transform]
  · simp [integrateBody, applyRules, rules, constMulPowBody, powBody,
      rule1, rule2, rule1Matches, rule2Matches, rule2Transform]
  · by_cases hn : n = -1
    · subst hn
      simp [integrateBody, applyRules, rules, powBody, rule1, rule1Matches,
        rule1Transform]
    · have hne : (n + 1 == 0) = false := by
        simp only [beq_eq_false_iff_ne, ne_eq]
        omega
      simp [integrateBody, applyRules, rules, powBody, rule1, rule1Matches,
        rule1Transform, hne, hn]
  · by_cases hn : n = -1
    · subst hn
      simp [integrateBody, applyRules, rules, constMulPowBody, powBody,
        rule1, rule2, rule1Matches, rule2Matches, rule2Transform]
    · have hne : (n + 1 == 0) = false := by
        simp only [beq_eq_false_iff_ne, ne_eq]
        omega
      simp [integrateBody, applyRules, rules, constMulPowBody, powBody,
        rule1, rule2, rule1Matches, rule2Matches, rule2Transform, hne, hn]

/-- C3: the Integration Rule Engine maps the bare symbol `v` to `(v^2)/2` and
a constant-times-symbol body in either operand order (`c*v` or `v*c`) to
`(c * v^2)/2`; both orders are recognized by rule 4 (the constant-times-symbol
rule) and by no other rule. -/
theorem integrate_symbol_rules (v e : String) (c : Int) :
    integrateBody (.sym v) e v
      = .ok (.binOp .div (.binOp .pow (.sym v) (.const 2)) (.const 2))
    ∧ integrateBody (constMulSymBody c v) e v
      = .ok (.binOp .div
          (.binOp .mul (.const c) (.binOp .pow (.sym v) (.const 2))) (.const 2))
    ∧ integrateBody (symMulConstBody v c) e v
      = .ok (.binOp .div
          (.binOp .mul (.const c) (.binOp .pow (.sym v) (.const 2))) (.const 2))
    ∧ rule4Matches (constMulSymBody c v) v = true
    ∧ rule4Matches (symMulConstBody v c) v = true
    ∧ rule1Matches (constMulSymBody c v) v = false
    ∧ rule2Matches (constMulSymBody c v) v = false
    ∧ rule3Matches (constMulSymBody c v) v = false
    ∧ rule1Matches (symMulConstBody v c) v = false
    ∧ rule2Matches (symMulConstBody v c) v = false
    ∧ rule3Matches (symMulConstBody v c) v = false := by
  refine ⟨?_, ?_, ?_, ?_, ?_, ?_, ?_, ?_, ?_, ?_, ?_⟩ <;>
    simp [integrateBody, applyRules, rules, constMulSymBody, symMulConstBody,
      rule1, rule2, rule3, rule4, rule1Matches, rule2Matches, rule3Matches,
      rule4Matches, rule3Transform, rule4Transform]

/-- C9: with a zero coefficient, `0*v^n` (for `n ≠ -1`) still yields a valid
result tree `(0 * v^(n+1))/(n+1)`, which evaluates to the constant `0` under
every environment; and `v^0` is handled by the generic `n+1` branch, giving
`(v^1)/1`. -/
theorem integrate_zero_cases (v e : String) (n : Int) (hn : n ≠ -1) :
    integrateBody (constMulPowBody 0 v n) e v
      = .ok (.binOp .div
          (.binOp .mul (.const 0) (.binOp .pow (.sym v) (.const (n + 1))))
          (.const (n + 1)))
    ∧ (∀ env : String → ℚ,
        evalExpr env
          (.binOp .div
            (.binOp .mul (.const 0) (.binOp .pow (.sym v) (.const (n + 1))))
            (.const (n + 1))) = some 0)
    ∧ integrateBody (powBody v 0) e v
      = .ok (.binOp .div (.binOp .pow (.sym v) (.const 1)) (.const 1)) := by
  have hne : (n + 1 == 0) = false := by
    simp only [beq_eq_false_iff_ne, ne_eq]
    omega
  refine ⟨?_, ?_, ?_⟩
  · simp [integrateBody, applyRules, rules, constMulPowBody, powBody,
      rule1, rule2, rule1Matches, rule2Matches, rule2Transform, hne]
  · intro env
    have h1 : ((n + 1 : ℤ) : ℚ) ≠ 0 := by
      exact_mod_cast (by omega : (n + 1 : ℤ) ≠ 0)
    have hden : ((n + 1 : ℤ) : ℚ).den = 1 := Rat.den_intCast _
    simp only [evalExpr, hden, eq_self_iff_true, if_true, Int.cast_zero, zero_mul]
    rw [if_neg h1, zero_div]
  · simp [integrateBody, applyRules, rules, powBody, rule1, rule1Matches,
      rule1Transform]

/-- C9 witness: instance at `v = x`, `n = 1`. -/
theorem integrate_zero_cases_witness :
    (1 : Int) ≠ -1
    ∧ (integrateBody (constMulPowBody 0 "x" 1) "0*x" "x"
        = .ok (.binOp .div
            (.binOp .mul (.const 0) (.binOp .pow (.sym "x") (.const 2)))
            (.const 2))
      ∧ (∀ env : String → ℚ,
          evalExpr env
            (.binOp .div
              (.binOp .mul (.const 0) (.binOp .pow (.sym "x") (.const 2)))
              (.const 2)) = some 0)
      ∧ integrateBody (powBody "x" 0) "0*x" "x"
        = .ok (.binOp .div (.binOp .pow (.sym "x") (.const 1)) (.const 1))) := by
  refine ⟨by decide, ?_, ?_, ?_⟩
  · exact (integrate_zero_cases "x" "0*x" 1 (by decide)).1
  · exact (integrate_zero_cases "x" "0*x" 1 (by decide)).2.1
  · exact (integrate_zero_cases "x" "0*x" 1 (by decide)).2.2

/-- C10: the either-order tolerance is limited to the constant-times-symbol
rule: a body `(v^n)*c`, with the constant as the right multiplicand of a
power, is recognized by none of the four rules and produces the
unsupported-expression error, even though both `c*v` and `v*c` succeed. -/
theorem right_constant_unsupported (v e : String) (n c : Int) :
    rule1Matches (powMulConstBody v n c) v = false
    ∧ rule2Matches (powMulConstBody v n c) v = false
    ∧ rule3Matches (powMulConstBody v n c) v = false
    ∧ rule4Matches (powMulConstBody v n c) v = false
    ∧ integrateBody (powMulConstBody v n c) e v
        = .error ("Integration not yet supported for: " ++ e
            ++ ". Try: x, x^2, x^3, 2*x, etc.")
    ∧ integrateBody (constMulSymBody c v) e v
        = .ok (.binOp .div
            (.binOp .mul (.const c) (.binOp .pow (.sym v) (.const 2))) (.const 2))
    ∧ integrateBody (symMulConstBody v c) e v
        = .ok (.binOp .div
            (.binOp .mul (.const c) (.binOp .pow (.sym v) (.const 2))) (.const 2)) := by
  refine ⟨rfl, rfl, rfl, rfl, ?_, ?_, ?_⟩ <;>
    simp [integrateBody, applyRules, rules, powMulConstBody, powBody,
      constMulSymBody, symMulConstBody, rule1, rule2, rule3, rule4,
      rule1Matches, rule2Matches, rule3Matches, rule4Matches, rule4Transform]

/-- C5: on a body that none of the four rules recognizes (for example the
trigonometric body `sin(v)`), the Integration Rule Engine fails with the
unsupported-expression error, whose message contains the literal source
expression text and lists the supported example forms, and it returns no
result tree. -/
theorem integrate_unsupported (body : Expr) (e v : String)
    (h1 : rule1Matches body v = false) (h2 : rule2Matches body v = false)
    (h3 : rule3Matches body v = false) (h4 : rule4Matches body v = false) :
    integrateBody body e v
      = .error ("Integration not yet supported for: " ++ e
          ++ ". Try: x, x^2, x^3, 2*x, etc.")
    ∧ (∃ pre post,
        "Integration not yet supported for: " ++ e
          ++ ". Try: x, x^2, x^3, 2*x, etc." = pre ++ e ++ post)
    ∧ (∀ t, integrateBody body e v ≠ .ok t)
    ∧ rule1Matches (.func "sin" (.sym v)) v = false
    ∧ rule2Matches (.func "sin" (.sym v)) v = false
    ∧ rule3Matches (.func "sin" (.sym v)) v = false
    ∧ rule4Matches (.func "sin" (.sym v)) v = false := by
  have happ : applyRules rules body v = none := by
    simp [applyRules, rules, rule1, rule2, rule3, rule4, h1, h2, h3, h4]
  refine ⟨?_, ?_, ?_, rfl, rfl, rfl, rfl⟩
  · simp [integrateBody, happ]
  · exact ⟨"Integration not yet supported for: ",
      ". Try: x, x^2, x^3, 2*x, etc.", rfl⟩
  · intro t
    simp [integrateBody, happ]

/-- C5 witness: instance at `body = sin(x)`, `e = sin(x)`, `v = x`. -/
theorem integrate_unsupported_witness :
    rule1Matches (.func "sin" (.sym "x")) "x" = false
    ∧ integrateBody (.func "sin" (.sym "x")) "sin(x)" "x"
        = .error ("Integration not yet supported for: " ++ "sin(x)"
            ++ ". Try: x, x^2, x^3, 2*x, etc.") :=
  ⟨rfl, (integrate_unsupported (.func "sin" (.sym "x")) "sin(x)" "x"
      rfl rfl rfl rfl).1⟩

/-- A `d/d` prefix rules out the `∫` prefix. -/
theorem begins_ddd_not_integral (s : String) (h : strBegins s "d/d" = true) :
    strBegins s "∫" = false := by
  unfold strBegins at h ⊢
  rcases hd : s.data with _ | ⟨c, cs⟩
  · rw [hd] at h
    exact absurd h (by decide)
  · rw [hd] at h
    have hc : 'd' = c := by
      have hb : ('d' == c) = true :=
        ((Bool.and_eq_true _ _).mp h).1
      exact eq_of_beq hb
    subst hc
    rfl

/-- C6: the rule table of the Integration Rule Engine is order-independent on
bodies matched by exactly one rule — applying any permutation of the table
gives the same output as the fixed top-down order — and on each rule's
canonical input shape (`v^n`, `c*v^n`, bare `v`, `c*v`, `v*c`) exactly that
rule's recognizer accepts and every other rule's recognizer rejects. -/
theorem rules_disjoint_order_indep :
    (∀ (l : List Rule) (b : Expr) (v : String),
        List.Perm l rules →
        (rules.filter (fun r => r.recognizes b v)).length = 1 →
        applyRules l b v = applyRules rules b v)
    ∧ (∀ (v : String) (n c : Int),
        (rule1Matches (powBody v n) v = true
          ∧ rule2Matches (powBody v n) v = false
          ∧ rule3Matches (powBody v n) v = false
          ∧ rule4Matches (powBody v n) v = false)
        ∧ (rule1Matches (constMulPowBody c v n) v = false
          ∧ rule2Matches (constMulPowBody c v n) v = true
          ∧ rule3Matches (constMulPowBody c v n) v = false
          ∧ rule4Matches (constMulPowBody c v n) v = false)
        ∧ (rule1Matches (.sym v) v = false
          ∧ rule2Matches (.sym v) v = false
          ∧ rule3Matches (.sym v) v = true
          ∧ rule4Matches (.sym v) v = false)
        ∧ (rule1Matches (constMulSymBody c v) v = false
          ∧ rule2Matches (constMulSymBody c v) v = false
          ∧ rule3Matches (constMulSymBody c v) v = false
          ∧ rule4Matches (constMulSymBody c v) v = true)
        ∧ (rule1Matches (symMulConstBody v c) v = false
          ∧ rule2Matches (symMulConstBody v c) v = false
          ∧ rule3Matches (symMulConstBody v c) v = false
          ∧ rule4Matches (symMulConstBody v c) v = true)) := by
  constructor
  · intro l b v hperm hone
    obtain ⟨r, hr⟩ := List.length_eq_one.mp hone
    have hperm2 := hperm.filter (fun r => r.recognizes b v)
    rw [hr] at hperm2
    have hfl := List.perm_singleton.mp hperm2
    unfold applyRules
    rw [find_eq_filter_head, find_eq_filter_head, hr, hfl]
  · intro v n c
    refine ⟨⟨?_, rfl, rfl, rfl⟩, ⟨rfl, ?_, rfl, rfl⟩, ⟨rfl, rfl, ?_, rfl⟩,
      ⟨rfl, rfl, rfl, ?_⟩, ⟨rfl, rfl, rfl, ?_⟩⟩ <;>
      simp [rule1Matches, rule2Matches, rule3Matches, rule4Matches, powBody,
        constMulPowBody, constMulSymBody, symMulConstBody]

/-- C6 witness: the reordered table `[rule2, rule1, rule4, rule3]` agrees with
the fixed order on the body `x^3`, which exactly one rule matches. -/
theorem rules_disjoint_order_indep_witness :
    List.Perm [rule2, rule1, rule4, rule3] rules
    ∧ (rules.filter (fun r => r.recognizes (powBody "x" 3) "x")).length = 1
    ∧ applyRules [rule2, rule1, rule4, rule3] (powBody "x" 3) "x"
        = applyRules rules (powBody "x" 3) "x" := by
  have hperm : List.Perm [rule2, rule1, rule4, rule3] rules := by
    have h1 : List.Perm [rule2, rule1, rule4, rule3] [rule1, rule2, rule4, rule3] :=
      List.Perm.swap rule1 rule2 [rule4, rule3]
    have h2 : List.Perm [rule1, rule2, rule4, rule3] [rule1, rule2, rule3, rule4] :=
      List.Perm.cons rule1 (List.Perm.cons rule2 (List.Perm.swap rule3 rule4 []))
    exact h1.trans h2
  refine ⟨hperm, by decide, rules_disjoint_order_indep.1 _ _ _ hperm (by decide)⟩

/-- C4 (amended): both dispatchers catch every downstream error — for every
input and every capability record they return a result value, never a raised
error — and both render a failure thrown by parsing or rule application as
`Error: <message>` result text: the parse/rule-engine path of the current
dispatcher (src/app.js) and the integral- and derivative-capability calls of
the legacy one (src/unnamed/part_000).  The current dispatcher always
produces a result text; the legacy one may produce no text (see the
counterexample). -/
theorem solveInput_total :
    (∀ (caps : MathCaps) (input : String), ∃ s, solveInput caps input = .ok s)
    ∧ (∀ (caps : LegacyCaps) (input : String), ∃ o, legacySolveInput caps input = .ok o)
    ∧ (∀ (caps : MathCaps) (input body0 v : String)
        (p : String → Except String Expr) (m : String),
        matchIntegral (trimStr input) = some (body0, v) →
        caps.loaded = true →
        caps.parse = some p →
        integrate p (trimStr body0) v = .error m →
        solveInput caps input = .ok ("Error: " ++ m))
    ∧ (∀ (caps : LegacyCaps) (input body0 v : String)
        (i : String → String → Except String Expr) (m : String),
        matchIntegral (trimStr input) = some (body0, v) →
        caps.mathLoaded = true →
        caps.integral = some i →
        i body0 v = .error m →
        legacySolveInput caps input = .ok (some ("Error: " ++ m)))
    ∧ (∀ (caps : LegacyCaps) (input body0 v : String)
        (d : String → String → Except String (Option Expr)) (m : String),
        matchDerivative (trimStr input) = some (v, body0) →
        caps.mathLoaded = true →
        caps.derivative = some d →
        d body0 v = .error m →
        legacySolveInput caps input = .ok (some ("Error: " ++ m))) := by
  refine ⟨?_, ?_, ?_, ?_, ?_⟩
  · intro caps input
    cases h : solveInputTry caps input with
    | ok r => exact ⟨r, by simp [solveInput, h]⟩
    | error m => exact ⟨"Error: " ++ m, by simp [solveInput, h]⟩
  · intro caps input
    cases h : legacyTry caps input with
    | ok r => exact ⟨r, by simp [legacySolveInput, h]⟩
    | error m => exact ⟨some ("Error: " ++ m), by simp [legacySolveInput, h]⟩
  · intro caps input body0 v p m hm hload hp hint
    have hb := matchIntegral_begins _ _ hm
    have ht : solveInputTry caps input = .ok ("Error: " ++ m) := by
      simp [solveInputTry, hb, hm, hload, hp, hint]
    simp [solveInput, ht]
  · intro caps input body0 v i m hm hload hi hint
    have hb := matchIntegral_begins _ _ hm
    have ht : legacyTry caps input = .error m := by
      simp [legacyTry, hb, hm, hload, hi, hint]
    simp [legacySolveInput, ht]
  · intro caps input body0 v d m hm hload hd hder
    obtain ⟨hb, hnb⟩ := matchDerivative_begins _ _ hm
    have ht : legacyTry caps input = .error m := by
      simp [legacyTry, hb, hnb, hm, hload, hd, hder]
    simp [legacySolveInput, ht]

/-- C4 counterexample: on the input `∫ x`, whose format the integral regex
rejects, the legacy dispatcher of src/unnamed/part_000 finishes without
producing any user-facing result text (`none`: `setResult` is never
called). -/
theorem legacy_produces_no_text :
    strBegins (trimStr "∫ x") "∫" = true
    ∧ matchIntegral (trimStr "∫ x") = none
    ∧ legacySolveInput legacyCapsNone "∫ x" = .ok none :=
  ⟨rfl, rfl, rfl⟩

/-- C4 witness: throwing capabilities are rendered as `Error: <message>`
result text by both dispatchers — the current one on a parse failure, the
legacy one on integral- and derivative-capability failures. -/
theorem solveInput_total_witness :
    matchIntegral (trimStr "∫ x dx") = some ("x", "x")
    ∧ integrate parseStubFail (trimStr "x") "x" = .error "boom"
    ∧ solveInput capsParseFail "∫ x dx" = .ok ("Error: " ++ "boom")
    ∧ legacySolveInput legacyCapsFail "∫ x dx" = .ok (some ("Error: " ++ "intfail"))
    ∧ legacySolveInput legacyCapsFail "d/dx x^2" = .ok (some ("Error: " ++ "derfail")) := by
  refine ⟨rfl, rfl, ?_, ?_, ?_⟩
  · exact solveInput_total.2.2.1 capsParseFail "∫ x dx" "x" "x" parseStubFail "boom"
      rfl rfl rfl rfl
  · exact solveInput_total.2.2.2.1 legacyCapsFail "∫ x dx" "x" "x" legacyIntegralFail
      "intfail" rfl rfl rfl rfl
  · exact solveInput_total.2.2.2.2 legacyCapsFail "d/dx x^2" "x^2" "x"
      legacyDerivativeFail "derfail" rfl rfl rfl rfl

/-- C7 (amended): in the current dispatcher (src/app.js), an input whose
trimmed form starts with `∫` but fails the integral pattern yields the
integral InvalidFormat message with its usage example, and one starting with
`d/d` but failing the derivative pattern yields the derivative InvalidFormat
message; the legacy dispatcher (src/unnamed/part_000) instead returns without
producing any message on such inputs. -/
theorem solveInput_invalid_format :
    (∀ (caps : MathCaps) (input : String),
      strBegins (trimStr input) "∫" = true →
      matchIntegral (trimStr input) = none →
      solveInput caps input
        = .ok "Invalid integral format. Use: ∫ expression dx (e.g., ∫ x^2 dx)")
    ∧ (∀ (caps : MathCaps) (input : String),
      strBegins (trimStr input) "d/d" = true →
      matchDerivative (trimStr input) = none →
      solveInput caps input
        = .ok "Invalid derivative format. Use: d/dx expression (e.g., d/dx x^2)")
    ∧ (∀ (caps : LegacyCaps) (input : String),
      strBegins (trimStr input) "∫" = true →
      matchIntegral (trimStr input) = none →
      legacySolveInput caps input = .ok none)
    ∧ (∀ (caps : LegacyCaps) (input : String),
      strBegins (trimStr input) "d/d" = true →
      matchDerivative (trimStr input) = none →
      legacySolveInput caps input = .ok none) := by
  refine ⟨?_, ?_, ?_, ?_⟩
  · intro caps input hb hm
    have ht : solveInputTry caps input
        = .ok "Invalid integral format. Use: ∫ expression dx (e.g., ∫ x^2 dx)" := by
      simp [solveInputTry, hb, hm]
    simp [solveInput, ht]
  · intro caps input hb hm
    have hnb := begins_ddd_not_integral _ hb
    have ht : solveInputTry caps input
        = .ok "Invalid derivative format. Use: d/dx expression (e.g., d/dx x^2)" := by
      simp [solveInputTry, hnb, hb, hm]
    simp [solveInput, ht]
  · intro caps input hb hm
    have ht : legacyTry caps input = .ok none := by
      simp [legacyTry, hb, hm]
    simp [legacySolveInput, ht]
  · intro caps input hb hm
    have hnb := begins_ddd_not_integral _ hb
    have ht : legacyTry caps input = .ok none := by
      simp [legacyTry, hnb, hb, hm]
    simp [legacySolveInput, ht]

/-- C7 counterexample: on the input `d/dx`, which starts with `d/d` but fails
the derivative pattern, the legacy dispatcher produces no InvalidFormat
message at all — it finishes without setting any result text. -/
theorem legacy_no_invalid_format_message :
    strBegins (trimStr "d/dx") "d/d" = true
    ∧ matchDerivative (trimStr "d/dx") = none
    ∧ legacySolveInput legacyCapsNone "d/dx" = .ok none :=
  ⟨rfl, rfl, rfl⟩

/-- C7 witness: the current dispatcher at the format-failing integral input
`∫ x`, and the legacy dispatcher at the format-failing derivative input
`d/dxy` (no message produced). -/
theorem solveInput_invalid_format_witness :
    strBegins (trimStr "∫ x") "∫" = true
    ∧ matchIntegral (trimStr "∫ x") = none
    ∧ solveInput capsNone "∫ x"
        = .ok "Invalid integral format. Use: ∫ expression dx (e.g., ∫ x^2 dx)"
    ∧ strBegins (trimStr "d/dxy") "d/d" = true
    ∧ matchDerivative (trimStr "d/dxy") = none
    ∧ legacySolveInput legacyCapsNone "d/dxy" = .ok none := by
  refine ⟨rfl, rfl, ?_, rfl, rfl, ?_⟩
  · exact solveInput_invalid_format.1 capsNone "∫ x" rfl rfl
  · exact solveInput_invalid_format.2.2.2 legacyCapsNone "d/dxy" rfl rfl

/-- C8: once the Integration Rule Engine or the derivative capability has
produced a result tree, the dispatcher returns the unsimplified tree's
canonical rendering when the simplify capability is unavailable, and the
simplified tree's rendering when it is available and succeeds. -/
theorem solveInput_simplify_fallback (caps : MathCaps) (input : String) :
    (∀ (body0 v : String) (p : String → Except String Expr) (t : Expr),
      matchIntegral (trimStr input) = some (body0, v) →
      caps.loaded = true →
      caps.parse = some p →
      integrate p (trimStr body0) v = .ok t →
      (caps.simplify = none → solveInput caps input = .ok (Expr.render t))
      ∧ (∀ (f : Expr → Except String Expr) (t' : Expr),
          caps.simplify = some f → f t = .ok t' →
          solveInput caps input = .ok (Expr.render t')))
    ∧ (∀ (body0 v : String) (d : String → String → Except String Expr) (t : Expr),
      matchDerivative (trimStr input) = some (v, body0) →
      caps.loaded = true →
      caps.derivative = some d →
      d (trimStr body0) v = .ok t →
      (caps.simplify = none → solveInput caps input = .ok (Expr.render t))
      ∧ (∀ (f : Expr → Except String Expr) (t' : Expr),
          caps.simplify = some f → f t = .ok t' →
          solveInput caps input = .ok (Expr.render t'))) := by
  constructor
  · intro body0 v p t hm hload hp hint
    have hb := matchIntegral_begins _ _ hm
    constructor
    · intro hs
      have ht : solveInputTry caps input = .ok (Expr.render t) := by
        simp [solveInputTry, hb, hm, hload, hp, hint, hs]
      simp [solveInput, ht]
    · intro f t' hf hft
      have ht : solveInputTry caps input = .ok (Expr.render t') := by
        simp [solveInputTry, hb, hm, hload, hp, hint, hf, hft]
      simp [solveInput, ht]
  · intro body0 v d t hm hload hd hder
    obtain ⟨hb, hnb⟩ := matchDerivative_begins _ _ hm
    constructor
    · intro hs
      have ht : solveInputTry caps input = .ok (Expr.render t) := by
        simp [solveInputTry, hb, hnb, hm, hload, hd, hder, hs]
      simp [solveInput, ht]
    · intro f t' hf hft
      have ht : solveInputTry caps input = .ok (Expr.render t') := by
        simp [solveInputTry, hb, hnb, hm, hload, hd, hder, hf, hft]
      simp [solveInput, ht]

/-- C8 witness: concrete runs with the simplifier absent (integral and
derivative branches return the unsimplified rendering) and present (the
simplified tree's rendering is returned). -/
theorem solveInput_simplify_fallback_witness :
    matchIntegral (trimStr "∫ x^2 dx") = some ("x^2", "x")
    ∧ capsNoSimplify.simplify = none
    ∧ solveInput capsNoSimplify "∫ x^2 dx"
        = .ok (Expr.render (.binOp .div (.binOp .pow (.sym "x") (.const 3)) (.const 3)))
    ∧ solveInput capsWithSimplify "∫ x^2 dx" = .ok (Expr.render (.sym "S"))
    ∧ solveInput capsDerivative "d/dx x^2" = .ok (Expr.render (constMulSymBody 2 "x")) := by
  refine ⟨rfl, rfl, ?_, ?_, ?_⟩
  · exact ((solveInput_simplify_fallback capsNoSimplify "∫ x^2 dx").1 "x^2" "x"
      parseStubSq _ rfl rfl rfl rfl).1 rfl
  · exact ((solveInput_simplify_fallback capsWithSimplify "∫ x^2 dx").1 "x^2" "x"
      parseStubSq _ rfl rfl rfl rfl).2 simplifyStub _ rfl rfl
  · exact ((solveInput_simplify_fallback capsDerivative "d/dx x^2").2 "x^2" "x"
      derivativeStub _ rfl rfl rfl rfl).1 rfl

end CalcSolver
